import Mathlib

/-!
Shallow embedding of the Heimkino transcoding service (src/server.js) and
verification of its natural-language specification.

The service is an Express app with four GET endpoints: /health, /transcode,
/info and /audio-remux.  Each request handler is embedded as a pure Lean
function from the request (the `url` query parameter) and the outcome of the
single upstream fetch (content-length header, or a fetch error) to the list
of externally observable events the handler performs, in order: opening the
upstream connection, probing, starting the ffmpeg engine session with a
concrete configuration, and responding.  JSON response bodies are embedded
as concrete structures carrying the literal strings of the source.
-/

namespace Heimkino

/-- A JSON error body as produced by the handlers in src/server.js:
an `error` field, and optional `size` and `message` fields (absent fields
are `none`). -/
structure ErrorBody where
  error : String
  size : Option String := none
  message : Option String := none
deriving DecidableEq

/-- One ffprobe stream entry, restricted to the fields src/server.js reads:
`codec_type`, `codec_name`, `width`, `height`, `r_frame_rate`,
`sample_rate`, `channels`. -/
structure ProbeStream where
  codec_type : String
  codec_name : String
  width : Nat
  height : Nat
  r_frame_rate : String
  sample_rate : Nat
  channels : Nat
deriving DecidableEq

/-- The ffprobe `format` object, restricted to the fields the code reads. -/
structure ProbeFormat where
  format_name : String
  duration : String
  size : String
  bit_rate : String
deriving DecidableEq

/-- An ffprobe result: a list of streams plus the format object. -/
structure ProbeMetadata where
  streams : List ProbeStream
  format : ProbeFormat
deriving DecidableEq

/-- The `video` sub-object of the /info response. -/
structure VideoInfo where
  codec : String
  width : Nat
  height : Nat
  fps : Option ℚ
deriving DecidableEq

/-- The `audio` sub-object of the /info response. -/
structure AudioInfo where
  codec : String
  sampleRate : Nat
  channels : Nat
deriving DecidableEq

/-- The /info success response body. -/
structure InfoResult where
  format : String
  duration : String
  size : String
  bitrate : String
  video : Option VideoInfo
  audio : Option AudioInfo
  mobileCompatible : Bool
deriving DecidableEq

/-- The declarative ffmpeg session configuration built by the fluent-ffmpeg
call chains in src/server.js: video codec, audio codec, audio bitrate,
container format and the raw output options list. -/
structure FfmpegConfig where
  videoCodec : String
  audioCodec : String
  audioBitrate : String
  format : String
  outputOptions : List String
deriving DecidableEq

/-- A response action taken by a handler: a JSON body with a status code,
the /info success JSON, or beginning the video/mp4 byte stream. -/
inductive Response
  | json (status : Nat) (body : ErrorBody)
  | infoJson (info : InfoResult)
  | stream
deriving DecidableEq

/-- An externally observable handler event, in the order the handler
performs them: opening the upstream HTTP fetch, running ffprobe, starting
an ffmpeg engine session, or responding to the client. -/
inductive Event
  | fetchUpstream (url : String)
  | probe
  | startEngine (cfg : FfmpegConfig)
  | respond (r : Response)
deriving DecidableEq

/-- An incoming HTTP request: the `url` query parameter, `none` when the
parameter is absent. -/
structure Request where
  url : Option String
deriving DecidableEq

/-- Outcome of the upstream axios fetch: success carrying the optional
content-length header (in bytes), or a thrown fetch error with a message. -/
inductive FetchOutcome
  | ok (contentLength : Option Nat)
  | fetchError (msg : String)
deriving DecidableEq

/-- JavaScript Math.round on the exact nonnegative quotient num/den:
round half away from zero, i.e. floor of num/den + 1/2. -/
def jsRound (num den : Nat) : Nat := (num + den / 2) / den

/-- The fileSizeMB computation of src/server.js lines 63 and 244:
Math.round of content-length / 1024 / 1024 when the header is present,
0 when it is absent. -/
def fileSizeMB : Option Nat → Nat
  | some cl => jsRound cl (1024 * 1024)
  | none => 0

/-- The 400 body sent whenever the `url` query parameter is missing. -/
def missingUrlBody : ErrorBody := { error := "Missing url parameter" }

/-- The 413 body of the /transcode size gate (src/server.js lines 74-78). -/
def tooLargeBody (sizeMB : Nat) : ErrorBody :=
  { error := "File too large for transcoding"
    size := some (toString sizeMB ++ " MB")
    message := some "This file is too large to transcode. Please try a different quality (WEB-DL recommended) or play directly without transcoding." }

/-- The ffmpeg configuration built by the /transcode handler
(src/server.js lines 99-108). -/
def transcodeFfmpegConfig : FfmpegConfig :=
  { videoCodec := "copy"
    audioCodec := "aac"
    audioBitrate := "192k"
    format := "mp4"
    outputOptions :=
      ["-movflags frag_keyframe+empty_moov+faststart",
       "-avoid_negative_ts make_zero",
       "-max_muxing_queue_size 1024"] }

/-- The ffmpeg configuration built by the /audio-remux handler
(src/server.js lines 258-266). -/
def audioRemuxFfmpegConfig : FfmpegConfig :=
  { videoCodec := "copy"
    audioCodec := "aac"
    audioBitrate := "192k"
    format := "mp4"
    outputOptions :=
      ["-movflags frag_keyframe+empty_moov+faststart",
       "-avoid_negative_ts make_zero"] }

/-- The GET /transcode handler (src/server.js lines 39-143) as an event
trace.  The url check comes first; the upstream fetch follows; only then
the size gate, and finally the engine start and the piped stream. -/
def transcodeHandler (req : Request) (fetch : FetchOutcome) : List Event :=
  match req.url with
  | none => [.respond (.json 400 missingUrlBody)]
  | some u =>
    if u = "" then [.respond (.json 400 missingUrlBody)]
    else
      .fetchUpstream u ::
      match fetch with
      | .fetchError msg =>
          [.respond (.json 500 { error := "Failed to transcode video", message := some msg })]
      | .ok cl =>
          let sizeMB := fileSizeMB cl
          if sizeMB > 30000 then
            [.respond (.json 413 (tooLargeBody sizeMB))]
          else
            [.startEngine transcodeFfmpegConfig, .respond .stream]

/-- The GET /audio-remux handler (src/server.js lines 220-301) as an event
trace.  It computes fileSizeMB but never tests it: there is no size gate
on this path. -/
def audioRemuxHandler (req : Request) (fetch : FetchOutcome) : List Event :=
  match req.url with
  | none => [.respond (.json 400 missingUrlBody)]
  | some u =>
    if u = "" then [.respond (.json 400 missingUrlBody)]
    else
      .fetchUpstream u ::
      match fetch with
      | .fetchError msg =>
          [.respond (.json 500 { error := "Failed to remux audio", message := some msg })]
      | .ok _ =>
          [.startEngine audioRemuxFfmpegConfig, .respond .stream]

/-- Whether `pat` occurs as a contiguous run inside `s`, by structural
recursion on `s`. -/
def charsContain : List Char → List Char → Bool
  | [], pat => pat.isEmpty
  | c :: cs, pat => pat.isPrefixOf (c :: cs) || charsContain cs pat

/-- JavaScript String.prototype.includes: substring containment. -/
def strContains (s pat : String) : Bool := charsContain s.data pat.data

/-!
The /info fps computation.  src/server.js line 189 computes
`fps: eval(videoStream.r_frame_rate)` - it hands the raw metadata string to
the JavaScript eval function.  We embed the arithmetic-expression fragment
of eval that is total on such strings: nonnegative integer literals
combined with the left-associative binary operators plus and slash,
computed as exact fraction pairs and read off as rationals (division by
zero, which JS maps to Infinity, is modelled as failure, and strings that
are not arithmetic expressions of this fragment as failure; the real eval
would execute them as arbitrary code).
-/

/-- Token of the arithmetic fragment: an integer literal, `+`, or `/`. -/
inductive Tok
  | num (n : Nat)
  | plus
  | slash
deriving DecidableEq

/-- Lexer for the arithmetic fragment.  The accumulator holds the integer
literal currently being read. -/
def lexArith : List Char → Option Nat → Option (List Tok)
  | [], none => some []
  | [], some n => some [Tok.num n]
  | c :: cs, acc =>
    if c.isDigit then
      lexArith cs (some ((acc.getD 0) * 10 + (c.toNat - '0'.toNat)))
    else
      let flush : List Tok → List Tok := fun ts =>
        match acc with
        | some n => Tok.num n :: ts
        | none => ts
      if c = '+' then (lexArith cs none).map (fun ts => flush (Tok.plus :: ts))
      else if c = '/' then (lexArith cs none).map (fun ts => flush (Tok.slash :: ts))
      else none

/-- Parses a maximal run of slash-chained literals, left-associatively,
starting from an accumulated value.  Values are carried as unreduced
numerator/denominator pairs of naturals (the fragment only produces
nonnegative rationals); division by zero fails. -/
def parseTermRest (acc : Nat × Nat) : List Tok → Option ((Nat × Nat) × List Tok)
  | Tok.slash :: Tok.num n :: rest =>
      if n = 0 then none else parseTermRest (acc.1, acc.2 * n) rest
  | ts => some (acc, ts)

/-- Parses one term: an integer literal followed by slash-chained literals. -/
def parseTerm : List Tok → Option ((Nat × Nat) × List Tok)
  | Tok.num n :: rest => parseTermRest (n, 1) rest
  | _ => none

/-- Parses the plus-chained continuation of an expression, with fuel. -/
def parseExprRest : Nat → Nat × Nat → List Tok → Option ((Nat × Nat) × List Tok)
  | 0, _, _ => none
  | fuel + 1, acc, Tok.plus :: rest =>
      match parseTerm rest with
      | some (v, rest2) =>
          parseExprRest fuel (acc.1 * v.2 + v.1 * acc.2, acc.2 * v.2) rest2
      | none => none
  | _, acc, ts => some (acc, ts)

/-- The arithmetic-expression fragment of JavaScript eval, as an unreduced
numerator/denominator pair: lex the string, parse term (plus term)* where
term is literal (slash literal)*, and require the whole input to be
consumed. -/
def evalArithFrac (s : String) : Option (Nat × Nat) :=
  match lexArith s.data none with
  | none => none
  | some ts =>
    match parseTerm ts with
    | none => none
    | some (v, rest) =>
      match parseExprRest ts.length v rest with
      | some (v2, []) => some v2
      | _ => none

/-- The numeric value computed by the arithmetic-expression fragment of
JavaScript eval on the raw string, as a rational. -/
def evalArith (s : String) : Option ℚ :=
  (evalArithFrac s).map (fun p => (p.1 : ℚ) / (p.2 : ℚ))

/-- Parses a nonempty all-digit run as a natural number. -/
def digitsToNatAux (acc : Nat) : List Char → Option Nat
  | [] => some acc
  | c :: cs =>
      if c.isDigit then digitsToNatAux (acc * 10 + (c.toNat - '0'.toNat)) cs
      else none

/-- Parses a nonempty all-digit character run; fails on the empty run or on
any non-digit character. -/
def digitsToNat : List Char → Option Nat
  | [] => none
  | cs => digitsToNatAux 0 cs

/-- Splits a character list on the slash character. -/
def splitSlash : List Char → List (List Char)
  | [] => [[]]
  | c :: cs =>
    let r := splitSlash cs
    if c = '/' then [] :: r
    else
      match r with
      | seg :: rest => (c :: seg) :: rest
      | [] => [[c]]

/-- Modelled from the spec: the frame-rate computation the spec requires in
place of eval - a simple fraction parse, splitting the raw string on the
single slash and numerically dividing the two parsed integers, with no
generic expression evaluation.  Fails on anything that is not a plain
numerator/denominator pair. -/
def fpsFractionParse (s : String) : Option ℚ :=
  match splitSlash s.data with
  | [a, b] =>
    match digitsToNat a, digitsToNat b with
    | some x, some y => if y = 0 then none else some ((x : ℚ) / (y : ℚ))
    | _, _ => none
  | _ => none

/-- The /info response construction (src/server.js lines 177-198): find the
first video and audio streams, copy format fields, compute fps by eval of
the raw r_frame_rate string, and set mobileCompatible to
videoStream codec_name equal to h264 AND format_name containing mp4
(false when there is no video stream). -/
def buildInfo (md : ProbeMetadata) : InfoResult :=
  let videoStream := md.streams.find? (fun s => s.codec_type == "video")
  let audioStream := md.streams.find? (fun s => s.codec_type == "audio")
  { format := md.format.format_name
    duration := md.format.duration
    size := md.format.size
    bitrate := md.format.bit_rate
    video := videoStream.map (fun v =>
      { codec := v.codec_name
        width := v.width
        height := v.height
        fps := evalArith v.r_frame_rate })
    audio := audioStream.map (fun a =>
      { codec := a.codec_name
        sampleRate := a.sample_rate
        channels := a.channels })
    mobileCompatible :=
      (match videoStream with
       | some v => v.codec_name == "h264"
       | none => false)
      && strContains md.format.format_name "mp4" }

/-- The GET /info handler (src/server.js lines 151-211) as an event trace.
The ffprobe result is `none` when ffprobe reported an error. -/
def infoHandler (req : Request) (fetch : FetchOutcome)
    (probeResult : Option ProbeMetadata) : List Event :=
  match req.url with
  | none => [.respond (.json 400 missingUrlBody)]
  | some u =>
    if u = "" then [.respond (.json 400 missingUrlBody)]
    else
      .fetchUpstream u ::
      match fetch with
      | .fetchError msg =>
          [.respond (.json 500 { error := "Failed to get video info", message := some msg })]
      | .ok _ =>
          .probe ::
          match probeResult with
          | none => [.respond (.json 500 { error := "Failed to get video info" })]
          | some md => [.respond (.infoJson (buildInfo md))]

/-- Whether the response headers have been flushed once `bytesStreamed`
output bytes have been piped to the client: Express flushes the header
block with the first body write, so headersSent holds exactly when at
least one byte has been streamed. -/
def headersSentAfter (bytesStreamed : Nat) : Bool := decide (0 < bytesStreamed)

/-- The /transcode ffmpeg error callback (src/server.js lines 121-129):
respond 500 with a structured body only when headers have not been sent;
otherwise do nothing (the piped connection just terminates). -/
def transcodeOnError (headersSent : Bool) (msg : String) : Option Response :=
  if headersSent then none
  else some (.json 500 { error := "Transcoding failed", message := some msg })

/-- The /audio-remux ffmpeg error callback (src/server.js lines 279-287). -/
def audioRemuxOnError (headersSent : Bool) (msg : String) : Option Response :=
  if headersSent then none
  else some (.json 500 { error := "Audio remux failed", message := some msg })

/-- The /health response body. -/
structure HealthBody where
  status : String
  service : String
  version : String
  ffmpeg : String
deriving DecidableEq

/-- The GET /health handler (src/server.js lines 23-30).  The parameter
models whether the ffmpeg engine is actually available in the environment;
the code never consults it and returns a fixed literal object. -/
def healthHandler (_engineActuallyAvailable : Bool) : HealthBody :=
  { status := "ok"
    service := "Heimkino Transcoding Service"
    version := "1.0.0"
    ffmpeg := "available" }

/-!
Theorems settling the specification claims.
-/

/-- C10: every /health response is the same constant JSON object with
status ok, the service name, version 1.0.0 and ffmpeg "available"; the
engine-availability flag is hard-coded and independent of whether the
engine is actually available. -/
theorem health_response_constant (available1 available2 : Bool) :
    healthHandler available1 = healthHandler available2 ∧
    healthHandler available1 =
      { status := "ok", service := "Heimkino Transcoding Service",
        version := "1.0.0", ffmpeg := "available" } ∧
    (healthHandler available1).ffmpeg = "available" :=
  ⟨rfl, rfl, rfl⟩

/-- C9: on each of /transcode, /info and /audio-remux, a request with no
url query parameter is answered 400 with the structured missing-parameter
body, and no upstream fetch event occurs, whatever the (unreached) fetch
and probe outcomes would have been. -/
theorem missing_url_rejected_no_fetch (f : FetchOutcome) (p : Option ProbeMetadata) :
    transcodeHandler ⟨none⟩ f = [.respond (.json 400 missingUrlBody)] ∧
    audioRemuxHandler ⟨none⟩ f = [.respond (.json 400 missingUrlBody)] ∧
    infoHandler ⟨none⟩ f p = [.respond (.json 400 missingUrlBody)] ∧
    ∀ u : String,
      Event.fetchUpstream u ∉ transcodeHandler ⟨none⟩ f ∧
      Event.fetchUpstream u ∉ audioRemuxHandler ⟨none⟩ f ∧
      Event.fetchUpstream u ∉ infoHandler ⟨none⟩ f p := by
  refine ⟨rfl, rfl, rfl, ?_⟩
  intro u
  refine ⟨?_, ?_, ?_⟩ <;> simp [transcodeHandler, audioRemuxHandler, infoHandler]

/-- C6: the ffmpeg error callbacks of /transcode and /audio-remux respond
with a structured 500 transcoding-failure JSON exactly when no output
bytes have been streamed yet (headers not sent); once streaming has begun
they send nothing and the piped connection just terminates. -/
theorem engine_error_pre_post_stream (bytesStreamed : Nat) (msg : String) :
    transcodeOnError (headersSentAfter bytesStreamed) msg =
      (if bytesStreamed = 0
       then some (.json 500 { error := "Transcoding failed", message := some msg })
       else none) ∧
    audioRemuxOnError (headersSentAfter bytesStreamed) msg =
      (if bytesStreamed = 0
       then some (.json 500 { error := "Audio remux failed", message := some msg })
       else none) := by
  cases bytesStreamed with
  | zero => exact ⟨rfl, rfl⟩
  | succ n =>
      constructor <;>
        simp [transcodeOnError, audioRemuxOnError, headersSentAfter]

/-- C7: on /audio-remux the strategy is unconditional for every
content-length (known or not, however large): copy the video stream,
re-encode audio to AAC at 192k, start the engine, and never send any
size-gate or other JSON error on this path. -/
theorem audio_remux_strategy (u : String) (cl : Option Nat) (hu : u ≠ "") :
    audioRemuxHandler ⟨some u⟩ (.ok cl) =
      [.fetchUpstream u, .startEngine audioRemuxFfmpegConfig, .respond .stream] ∧
    audioRemuxFfmpegConfig.videoCodec = "copy" ∧
    audioRemuxFfmpegConfig.audioCodec = "aac" ∧
    audioRemuxFfmpegConfig.audioBitrate = "192k" ∧
    ∀ (s : Nat) (b : ErrorBody),
      Event.respond (Response.json s b) ∉ audioRemuxHandler ⟨some u⟩ (.ok cl) := by
  refine ⟨by simp [audioRemuxHandler, hu], rfl, rfl, rfl, ?_⟩
  intro s b
  simp [audioRemuxHandler, hu]

/-- Witness for audio_remux_strategy: a concrete 953674 MB source is still
remuxed with video copy and no size gate. -/
theorem audio_remux_strategy_witness :
    audioRemuxHandler ⟨some "http://example.com/movie.mkv"⟩ (.ok (some 999999999999)) =
      [.fetchUpstream "http://example.com/movie.mkv",
       .startEngine audioRemuxFfmpegConfig, .respond .stream] :=
  (audio_remux_strategy "http://example.com/movie.mkv" (some 999999999999) (by decide)).1

/-- C8: the mobileCompatible flag of /info is true exactly when the first
video stream has codec h264 and the container format name contains mp4;
with no video stream it is false and the request still succeeds with the
info JSON rather than an error. -/
theorem info_mobile_compatible_iff (md : ProbeMetadata) :
    ((buildInfo md).mobileCompatible = true ↔
      ∃ v, md.streams.find? (fun s => s.codec_type == "video") = some v ∧
        v.codec_name = "h264" ∧
        strContains md.format.format_name "mp4" = true) ∧
    (md.streams.find? (fun s => s.codec_type == "video") = none →
      (buildInfo md).mobileCompatible = false ∧
      ∀ (u : String) (cl : Option Nat), u ≠ "" →
        infoHandler ⟨some u⟩ (.ok cl) (some md) =
          [.fetchUpstream u, .probe, .respond (.infoJson (buildInfo md))]) := by
  constructor
  · cases hv : md.streams.find? (fun s => s.codec_type == "video") with
    | none => simp [buildInfo, hv]
    | some v => simp [buildInfo, hv]
  · intro hnone
    refine ⟨by simp [buildInfo, hnone], ?_⟩
    intro u cl hu
    simp [infoHandler, hu]

/-- Witness for info_mobile_compatible_iff: an h264 stream in an
mp4-family container is mobile compatible; metadata with only an audio
stream is not, yet still yields a successful info response. -/
theorem info_mobile_compatible_iff_witness :
    (buildInfo ⟨[⟨"video", "h264", 1920, 1080, "30000/1001", 0, 0⟩],
                ⟨"mov,mp4,m4a,3gp,3g2,mj2", "7200.5", "5368709120", "6000000"⟩⟩).mobileCompatible
      = true ∧
    (buildInfo ⟨[⟨"audio", "aac", 0, 0, "0/0", 48000, 2⟩],
                ⟨"matroska,webm", "7200.5", "5368709120", "6000000"⟩⟩).mobileCompatible
      = false ∧
    infoHandler ⟨some "http://example.com/a.mka"⟩ (.ok (some 1000))
        (some ⟨[⟨"audio", "aac", 0, 0, "0/0", 48000, 2⟩],
               ⟨"matroska,webm", "7200.5", "5368709120", "6000000"⟩⟩) =
      [.fetchUpstream "http://example.com/a.mka", .probe,
       .respond (.infoJson (buildInfo
         ⟨[⟨"audio", "aac", 0, 0, "0/0", 48000, 2⟩],
          ⟨"matroska,webm", "7200.5", "5368709120", "6000000"⟩⟩))] := by
  refine ⟨?_, ?_, ?_⟩
  · exact (info_mobile_compatible_iff _).1.mpr
      ⟨⟨"video", "h264", 1920, 1080, "30000/1001", 0, 0⟩, by decide, by decide, by decide⟩
  · exact ((info_mobile_compatible_iff _).2 (by decide)).1
  · exact ((info_mobile_compatible_iff _).2 (by decide)).2
      "http://example.com/a.mka" (some 1000) (by decide)

/-- C1: evaluation of the /transcode handler at a non-H.264 source (an
HEVC MKV, 700 MB).  The handler never probes the input and starts the
engine with video codec copy - it does not select a re-encode for any
codec/container combination, contradicting the comments and the probe log
line of the source; audio is indeed always re-encoded to AAC. -/
theorem transcode_ignores_codec_always_copies :
    transcodeHandler ⟨some "http://example.com/hevc-movie.mkv"⟩ (.ok (some 734003200)) =
      [.fetchUpstream "http://example.com/hevc-movie.mkv",
       .startEngine transcodeFfmpegConfig,
       .respond .stream] ∧
    transcodeFfmpegConfig.videoCodec = "copy" ∧
    transcodeFfmpegConfig.audioCodec = "aac" ∧
    Event.probe ∉
      transcodeHandler ⟨some "http://example.com/hevc-movie.mkv"⟩ (.ok (some 734003200)) :=
  ⟨by decide, rfl, rfl, by decide⟩

/-- C2: the /info fps field is computed by handing the raw r_frame_rate
string to generic expression evaluation, not by a fraction parse: on the
input string 2+3 the code computes 5 (the video info carries fps 5), while
the fraction parse the spec requires yields nothing. -/
theorem info_fps_by_generic_eval :
    evalArithFrac "2+3" = some (5, 1) ∧
    evalArith "2+3" = some 5 ∧
    fpsFractionParse "2+3" = none ∧
    (buildInfo ⟨[⟨"video", "hevc", 1920, 1080, "2+3", 0, 0⟩],
                ⟨"matroska,webm", "7200.5", "5368709120", "6000000"⟩⟩).video =
      some { codec := "hevc", width := 1920, height := 1080, fps := some 5 } := by
  have h : evalArithFrac "2+3" = some (5, 1) := by decide
  refine ⟨h, ?_, by decide, ?_⟩
  · simp [evalArith, h]
  · have hf : List.find? (fun s => s.codec_type == "video")
        [(⟨"video", "hevc", 1920, 1080, "2+3", 0, 0⟩ : ProbeStream)] =
        some ⟨"video", "hevc", 1920, 1080, "2+3", 0, 0⟩ := by decide
    simp [buildInfo, hf, evalArith, h]

/-- Counterexample to C3 as stated: a content-length of one byte more than
30,000 MB (31457280001 bytes) exceeds 30,000 MB, yet the handler does not
respond 413 - rounding makes the gate pass and the engine is started. -/
theorem size_gate_byte_boundary_counterexample :
    30000 * 1048576 < 31457280001 ∧
    fileSizeMB (some 31457280001) = 30000 ∧
    transcodeHandler ⟨some "http://example.com/remux.mkv"⟩ (.ok (some 31457280001)) =
      [.fetchUpstream "http://example.com/remux.mkv",
       .startEngine transcodeFfmpegConfig,
       .respond .stream] :=
  ⟨by norm_num, by decide, by decide⟩

/-- C3 amended: when the advertised content-length rounds to more than
30,000 MB (that is, it is at least 30,000.5 MiB = 31457804288 bytes), the
/transcode response is a 413 whose body identifies the rounded size in MB
and suggests a lower-bitrate quality, and no engine session is started;
when the content-length is unknown the gate is skipped and the request
proceeds to the engine. -/
theorem size_gate_rounded_threshold (u : String) (cl : Nat) (hu : u ≠ "")
    (hcl : 31457804288 ≤ cl) :
    transcodeHandler ⟨some u⟩ (.ok (some cl)) =
      [.fetchUpstream u, .respond (.json 413 (tooLargeBody (fileSizeMB (some cl))))] ∧
    (tooLargeBody (fileSizeMB (some cl))).size =
      some (toString (fileSizeMB (some cl)) ++ " MB") ∧
    (tooLargeBody (fileSizeMB (some cl))).message =
      some "This file is too large to transcode. Please try a different quality (WEB-DL recommended) or play directly without transcoding." ∧
    (∀ cfg, Event.startEngine cfg ∉ transcodeHandler ⟨some u⟩ (.ok (some cl))) ∧
    transcodeHandler ⟨some u⟩ (.ok none) =
      [.fetchUpstream u, .startEngine transcodeFfmpegConfig, .respond .stream] := by
  have hmb : fileSizeMB (some cl) = (cl + 524288) / 1048576 := rfl
  have h30 : 30000 < fileSizeMB (some cl) := by
    rw [hmb, Nat.lt_iff_add_one_le, Nat.le_div_iff_mul_le (by norm_num : (0 : ℕ) < 1048576)]
    omega
  have htrace : transcodeHandler ⟨some u⟩ (.ok (some cl)) =
      [.fetchUpstream u, .respond (.json 413 (tooLargeBody (fileSizeMB (some cl))))] := by
    simp [transcodeHandler, hu, h30]
  refine ⟨htrace, rfl, rfl, ?_, by simp [transcodeHandler, hu, fileSizeMB]⟩
  intro cfg
  rw [htrace]
  simp

/-- Witness for size_gate_rounded_threshold: 31458328576 bytes (30001 MiB)
is rejected 413 with the size named in the body. -/
theorem size_gate_rounded_threshold_witness :
    transcodeHandler ⟨some "http://example.com/bdremux.mkv"⟩ (.ok (some 31458328576)) =
      [.fetchUpstream "http://example.com/bdremux.mkv",
       .respond (.json 413 (tooLargeBody (fileSizeMB (some 31458328576))))] :=
  (size_gate_rounded_threshold "http://example.com/bdremux.mkv" 31458328576
    (by decide) (by norm_num)).1

/-- Counterexample to C4 as stated: on an oversized source the 413
size-gate decision is made only after the upstream fetch event - the trace
opens the upstream connection first, so the 4xx is not decided before
upstream work begins. -/
theorem upstream_fetch_before_413 :
    transcodeHandler ⟨some "http://example.com/bdremux.mkv"⟩ (.ok (some 41943040000)) =
      [.fetchUpstream "http://example.com/bdremux.mkv",
       .respond (.json 413 (tooLargeBody 40000))] ∧
    (transcodeHandler ⟨some "http://example.com/bdremux.mkv"⟩
        (.ok (some 41943040000))).head? =
      some (.fetchUpstream "http://example.com/bdremux.mkv") :=
  ⟨by decide, by decide⟩

/-- C4 amended: missing-parameter errors are detected before any upstream
work and returned as structured 400 JSON; the size-gate error is detected
only after the upstream connection is opened (its content-length is needed)
but before any engine session starts, and is returned as structured 413
JSON. -/
theorem param_before_fetch_size_gate_after (u : String) (cl : Nat) (hu : u ≠ "")
    (hbig : 30000 < fileSizeMB (some cl)) :
    (∀ f, transcodeHandler ⟨none⟩ f = [.respond (.json 400 missingUrlBody)]) ∧
    transcodeHandler ⟨some u⟩ (.ok (some cl)) =
      [.fetchUpstream u, .respond (.json 413 (tooLargeBody (fileSizeMB (some cl))))] ∧
    (∀ cfg, Event.startEngine cfg ∉ transcodeHandler ⟨some u⟩ (.ok (some cl))) := by
  have htrace : transcodeHandler ⟨some u⟩ (.ok (some cl)) =
      [.fetchUpstream u, .respond (.json 413 (tooLargeBody (fileSizeMB (some cl))))] := by
    simp [transcodeHandler, hu, hbig]
  refine ⟨fun f => rfl, htrace, ?_⟩
  intro cfg
  rw [htrace]
  simp

/-- Witness for param_before_fetch_size_gate_after at a 40,000 MB source. -/
theorem param_before_fetch_size_gate_after_witness :
    transcodeHandler ⟨some "http://example.com/huge.mkv"⟩ (.ok (some 41943040000)) =
      [.fetchUpstream "http://example.com/huge.mkv",
       .respond (.json 413 (tooLargeBody (fileSizeMB (some 41943040000))))] :=
  (param_before_fetch_size_gate_after "http://example.com/huge.mkv" 41943040000
    (by decide) (by decide)).2.1

/-- Counterexample to C5 as stated: the /audio-remux session output options
contain no muxing-queue bound at all - only the fragmented-MP4 movflags and
the negative-timestamp clamp - yet this is the configuration every
/audio-remux session is started with. -/
theorem audio_remux_lacks_muxing_queue_bound :
    audioRemuxFfmpegConfig.outputOptions =
      ["-movflags frag_keyframe+empty_moov+faststart",
       "-avoid_negative_ts make_zero"] ∧
    audioRemuxFfmpegConfig.outputOptions.any
      (fun o => strContains o "max_muxing_queue_size") = false ∧
    audioRemuxHandler ⟨some "http://example.com/movie.mkv"⟩ (.ok (some 734003200)) =
      [.fetchUpstream "http://example.com/movie.mkv",
       .startEngine audioRemuxFfmpegConfig, .respond .stream] :=
  ⟨rfl, by decide, by decide⟩

/-- C5 amended: every engine session on both paths is configured for
fragmented MP4 output (frag_keyframe+empty_moov+faststart) with negative
timestamps clamped to zero; the bounded muxing queue
(max_muxing_queue_size 1024) is configured on the /transcode path only,
not on /audio-remux. -/
theorem engine_session_output_options (u : String) (cl : Option Nat) (hu : u ≠ "")
    (hsz : fileSizeMB cl ≤ 30000) :
    transcodeHandler ⟨some u⟩ (.ok cl) =
      [.fetchUpstream u, .startEngine transcodeFfmpegConfig, .respond .stream] ∧
    audioRemuxHandler ⟨some u⟩ (.ok cl) =
      [.fetchUpstream u, .startEngine audioRemuxFfmpegConfig, .respond .stream] ∧
    transcodeFfmpegConfig.outputOptions =
      ["-movflags frag_keyframe+empty_moov+faststart",
       "-avoid_negative_ts make_zero",
       "-max_muxing_queue_size 1024"] ∧
    audioRemuxFfmpegConfig.outputOptions =
      ["-movflags frag_keyframe+empty_moov+faststart",
       "-avoid_negative_ts make_zero"] ∧
    transcodeFfmpegConfig.outputOptions.any
      (fun o => strContains o "max_muxing_queue_size") = true ∧
    audioRemuxFfmpegConfig.outputOptions.any
      (fun o => strContains o "max_muxing_queue_size") = false := by
  have hle : ¬ 30000 < fileSizeMB cl := Nat.not_lt.mpr hsz
  exact ⟨by simp [transcodeHandler, hu, hle],
         by simp [audioRemuxHandler, hu],
         rfl, rfl, by decide, by decide⟩

/-- Witness for engine_session_output_options with an unknown
content-length. -/
theorem engine_session_output_options_witness :
    transcodeHandler ⟨some "http://example.com/movie.avi"⟩ (.ok none) =
      [.fetchUpstream "http://example.com/movie.avi",
       .startEngine transcodeFfmpegConfig, .respond .stream] ∧
    audioRemuxHandler ⟨some "http://example.com/movie.avi"⟩ (.ok none) =
      [.fetchUpstream "http://example.com/movie.avi",
       .startEngine audioRemuxFfmpegConfig, .respond .stream] :=
  ⟨(engine_session_output_options "http://example.com/movie.avi" none
      (by decide) (by decide)).1,
   (engine_session_output_options "http://example.com/movie.avi" none
      (by decide) (by decide)).2.1⟩

end Heimkino
